import Mathlib

/-!
Verification of the document-mutation and XML-splice subsystem of a
presentation editor (`tool.py`, class `PowerPointEditor`).

The Python source is shallowly embedded: the mutable editor object becomes a
`PowerPointEditor` state threaded through each operation, Python lists become
`List`, Python `int` indices become `ℤ` (with Python's negative-index
resolution), Python `float` durations become `ℚ`, and each operation returns
its structured result record together with the successor state.

The external package component (the slide/shape object graph and raw markup
tree the source manipulates through `python-pptx`/`lxml`) is not part of this
repository; where its behaviour matters it is modelled from the spec's
external-interface section, and such definitions carry a
`Modelled from the spec:` doc comment.
-/

/-! ## Python list primitives -/

/-- Resolve a Python `int` index against a list of length `n`:
nonnegative indices must be `< n`, negative indices count from the end
(`-n ≤ i < 0` resolves to `n + i`); anything else raises `IndexError`. -/
def pyResolve (n : ℕ) (i : ℤ) : Option ℕ :=
  if 0 ≤ i ∧ i < (n : ℤ) then some i.toNat
  else if -(n : ℤ) ≤ i ∧ i < 0 then some (i + n).toNat
  else none

/-- Python `l[i]` (raising = `none`). -/
def pyGet {α : Type} (l : List α) (i : ℤ) : Option α :=
  (pyResolve l.length i).bind fun k => l.get? k

/-- Python `l.remove(l[i])` for lists of distinct node objects: fetching the
element at index `i` and removing that very object deletes exactly the entry
at the resolved position (raising = `none`). -/
def pyRemoveAt {α : Type} (l : List α) (i : ℤ) : Option (List α) :=
  (pyResolve l.length i).map fun k => l.eraseIdx k

/-- Python `range(n)` as a list of `int`s. -/
def pyRange (n : ℕ) : List ℤ :=
  (List.range n).map Int.ofNat

/-- Python `int(q)` for a real-valued `q`: truncation toward zero. -/
def pyTrunc (q : ℚ) : ℤ :=
  if q < 0 then -(Int.floor (-q)) else Int.floor q

/-- Python `s.lower()` for the ASCII type strings this subsystem compares:
character-wise lowercasing. -/
def pyLower (s : String) : String :=
  ⟨s.data.map Char.toLower⟩

/-! ## Transition fragment codec (`_create_transition_xml`) -/

/-- The `spd` attribute values of a transition fragment. -/
inductive Speed where
  | fast
  | med
  | slow
deriving DecidableEq

/-- The child element encoding the transition kind, with its fixed
direction/orientation attributes as written by the source. -/
inductive TransitionContent where
  | fade
  | push (dir : String)
  | wipe (dir : String)
  | zoom
  | split (orient : String) (dir : String)
  | blinds (dir : String)
  | dissolve
deriving DecidableEq

/-- The transition fragment spliced into a slide's markup: the attributes and
child element of the `p:transition` element built by `_create_transition_xml`
(the XML string is represented structurally). -/
structure TransitionXml where
  spd : Speed
  advClick : Bool
  advTm : Option ℤ
  content : TransitionContent
deriving DecidableEq

/-- The transition-kind child element chosen from the lowercased type string
(default branch: `fade`), `tool.py` lines 874-892. -/
def transitionContent (tl : String) : TransitionContent :=
  if tl = "fade" then .fade
  else if tl = "push" then .push "l"
  else if tl = "wipe" then .wipe "l"
  else if tl = "zoom" then .zoom
  else if tl = "split" then .split "horz" "out"
  else if tl = "blinds" then .blinds "horz"
  else if tl = "dissolve" then .dissolve
  else .fade

/-- `_create_transition_xml` (`tool.py` lines 851-899): the speed attribute is
derived from the duration by thresholds, the click-advance flag is always
written, and the timed-advance attribute is written exactly when
`advance_after_time` is given (milliseconds, truncated to `int`). -/
def createTransitionXml (transition_type : String) (duration : ℚ)
    (advance_on_click : Bool) (advance_after_time : Option ℚ) : TransitionXml :=
  { spd := if duration ≤ 1/2 then .fast else if duration ≤ 2 then .med else .slow
  , advClick := advance_on_click
  , advTm := advance_after_time.map fun t => pyTrunc (t * 1000)
  , content := transitionContent (pyLower transition_type) }

/-! ## Slide markup model -/

/-- A direct child of a slide's markup element, at the granularity the source
inspects: the structural body `p:cSld`, the colour-map override `p:clrMapOvr`,
a spliced `p:transition` fragment, or any other element. -/
inductive XmlNode where
  | cSld
  | clrMapOvr
  | transition (frag : TransitionXml)
  | other (tag : String)
deriving DecidableEq

/-- Whether a markup child is a transition fragment. -/
def isTransitionNode : XmlNode → Bool
  | .transition _ => true
  | _ => false

/-- Number of transition fragments in a slide's markup children. -/
def countTransitions (l : List XmlNode) : ℕ :=
  (l.filter isTransitionNode).length

/-- `find('.//p:transition')` followed by `remove`: delete the first
transition fragment if one exists, otherwise leave the markup unchanged
(`tool.py` lines 806-808). -/
def removeFirstTransition : List XmlNode → List XmlNode
  | [] => []
  | x :: xs => if isTransitionNode x then xs else x :: removeFirstTransition xs

/-- Insert a fragment immediately before the first `p:clrMapOvr` child if one
exists, otherwise append it as the last child (`tool.py` lines 826-831). -/
def insertBeforeClrMapOvr (frag : XmlNode) : List XmlNode → List XmlNode
  | [] => [frag]
  | x :: xs =>
    if x = XmlNode.clrMapOvr then frag :: x :: xs
    else x :: insertBeforeClrMapOvr frag xs

/-! ## Shape and table model -/

/-- Cell grid and declared column count of a table shape. `len(table.rows)`
is the number of row entries (`cells.length`), `len(table.columns)` is the
declared column count `cols`. -/
structure TableData where
  cells : List (List String)
  cols : ℕ
deriving DecidableEq

/-- The shape variants the embedded operations distinguish (the source's
duck-typed `hasattr(shape, 'table')` probe is modelled as the tagged `table`
variant, following the spec's data model). A text box records its text,
geometry in inches, and the optional font size/colour actually applied. -/
inductive Shape where
  | textBox (text : String) (left top width height : ℚ)
      (fontSize : Option ℕ) (fontColor : Option String)
  | table (data : TableData)
  | picture
  | placeholder
deriving DecidableEq

/-- Whether a shape is a table-variant shape (the successful outcome of the
source's `hasattr(shape, 'table')` probe). -/
def isTableShape : Shape → Bool
  | .table _ => true
  | _ => false

/-- The functional counterpart of mutating the `table_index`-th table-variant
shape in place: replace the `k`-th table-variant entry (scanning in shape
order, skipping non-table shapes) with the updated table. -/
def replaceNthTable : List Shape → ℕ → TableData → List Shape
  | [], _, _ => []
  | Shape.table _ :: rest, 0, td => Shape.table td :: rest
  | Shape.table t :: rest, k + 1, td => Shape.table t :: replaceNthTable rest k td
  | s :: rest, k, td => s :: replaceNthTable rest k td

/-- The in-bounds cell update performed through the external table object. -/
def tdUpdate (td : TableData) (rn cn : ℕ) (text : String) : TableData :=
  { td with cells := td.cells.set rn ((td.cells.getD rn []).set cn text) }

/-- Modelled from the spec: the external package component's
`table.cell(row, col)` accessor (not part of this repository). Cells are
addressed by 0-based row/column within the table's declared counts; an
address outside them raises, which the caller's boundary turns into a
failure result. -/
def tableSetCell (td : TableData) (row col : ℤ) (text : String) : Option TableData :=
  if 0 ≤ row ∧ row < (td.cells.length : ℤ) ∧ 0 ≤ col ∧ col < (td.cols : ℤ) then
    some (tdUpdate td row.toNat col.toNat text)
  else none

/-- A hexadecimal digit character. -/
def isHexDigitChar (c : Char) : Bool :=
  c.isDigit || ('a' ≤ c && c ≤ 'f') || ('A' ≤ c && c ≤ 'F')

/-- A valid 6-digit hex colour accepted by the external
`RGBColor.from_string`; a malformed string raises, which callers of
`add_text_box` silently swallow (default colour kept). -/
def parseHexColor (s : String) : Option String :=
  if s.length = 6 ∧ s.data.all isHexDigitChar then some s else none

/-! ## Document model -/

/-- A slide: its layout reference, its markup element's direct children, and
its ordered shape sequence. -/
structure Slide where
  layout : ℕ
  element : List XmlNode
  shapes : List Shape
deriving DecidableEq

/-- Modelled from the spec: the external package component exposes the open
document as an ordered object-model slide sequence (`presentation.slides`,
backed by `slides._sldIdLst`) and, in parallel, the package-level raw
slide-reference list (`presentation.part._element.sldIdLst`); the spec's
data model treats these as two parallel structures kept in lockstep. -/
structure Pres where
  slides : List Slide
  sldIdLst : List ℕ
deriving DecidableEq

/-- The mutable editor object: the optional open document and recorded path. -/
structure PowerPointEditor where
  current_presentation : Option Pres
  current_file_path : Option String
deriving DecidableEq

/-- The error classes of the structured failure results returned by the
operations (each stands for the corresponding message string built by the
source; `indexError` is the caught Python `IndexError` of a raising
library call). -/
inductive ErrKind where
  | noOpenDocument
  | slideIndexOutOfRange
  | tableIndexOutOfRange
  | cellOutOfRange
  | unsupportedTransitionType
  | injectionVerificationFailed
  | noSlides
  | indexError
deriving DecidableEq

/-- The `success`/`error` part of an operation's structured result record. -/
structure OpResult where
  success : Bool
  error : Option ErrKind
deriving DecidableEq

/-- The result record of `apply_transition_to_all_slides`:
`slides_processed` and, on partial success, the `failed_slides` list
(absent on full success, modelled as the empty list). -/
structure ApplyResult where
  success : Bool
  error : Option ErrKind
  slidesProcessed : ℕ
  failedSlides : List ℤ
deriving DecidableEq

/-- The object-model slide sequence of the editor's open document
(empty when none is open). -/
def slidesOf (e : PowerPointEditor) : List Slide :=
  match e.current_presentation with
  | none => []
  | some p => p.slides

/-- The raw slide-reference list of the editor's open document
(empty when none is open). -/
def idsOf (e : PowerPointEditor) : List ℕ :=
  match e.current_presentation with
  | none => []
  | some p => p.sldIdLst

/-! ## Operations -/

/-- `delete_slide` (`tool.py` lines 371-394): bounds-check
`slide_index >= len(slides)`, fetch `slides[slide_index]`, then remove the
matching entry from the raw reference list and from the object-model
sequence, in that order. -/
def delete_slide (e : PowerPointEditor) (slide_index : ℤ) :
    OpResult × PowerPointEditor :=
  match e.current_presentation with
  | none => (⟨false, some .noOpenDocument⟩, e)
  | some pres =>
    if (pres.slides.length : ℤ) ≤ slide_index then
      (⟨false, some .slideIndexOutOfRange⟩, e)
    else
      match pyGet pres.slides slide_index with
      | none => (⟨false, some .indexError⟩, e)
      | some _ =>
        match pyRemoveAt pres.sldIdLst slide_index with
        | none => (⟨false, some .indexError⟩, e)
        | some ids2 =>
          match pyRemoveAt pres.slides slide_index with
          | none =>
            (⟨false, some .indexError⟩,
              { e with current_presentation := some { pres with sldIdLst := ids2 } })
          | some slides2 =>
            let pres2 := { pres with slides := slides2, sldIdLst := ids2 }
            (⟨true, none⟩, { e with current_presentation := some pres2 })

/-- `add_text_box` (`tool.py` lines 134-177): bounds-check, then append a
text box with the given text, geometry and font size to the slide's shapes;
a malformed font colour is swallowed and the default kept. -/
def add_text_box (e : PowerPointEditor) (slide_index : ℤ) (text : String)
    (left top width height : ℚ) (font_size : ℕ) (font_color : String) :
    OpResult × PowerPointEditor :=
  match e.current_presentation with
  | none => (⟨false, some .noOpenDocument⟩, e)
  | some pres =>
    if (pres.slides.length : ℤ) ≤ slide_index then
      (⟨false, some .slideIndexOutOfRange⟩, e)
    else
      match pyResolve pres.slides.length slide_index with
      | none => (⟨false, some .indexError⟩, e)
      | some k =>
        match pres.slides.get? k with
        | none => (⟨false, some .indexError⟩, e)
        | some slide =>
          let shape := Shape.textBox text left top width height
            (some font_size) (parseHexColor font_color)
          let slide2 := { slide with shapes := slide.shapes ++ [shape] }
          let pres2 := { pres with slides := pres.slides.set k slide2 }
          (⟨true, none⟩, { e with current_presentation := some pres2 })

/-- `set_table_cell_text` (`tool.py` lines 507-555): bounds-check the slide
index, scan the slide's shapes in order collecting table-variant shapes,
bounds-check `table_index` against that collection, check `row`/`col`
against the located table's declared counts, then write the cell text. -/
def set_table_cell_text (e : PowerPointEditor)
    (slide_index table_index row col : ℤ) (text : String) :
    OpResult × PowerPointEditor :=
  match e.current_presentation with
  | none => (⟨false, some .noOpenDocument⟩, e)
  | some pres =>
    if (pres.slides.length : ℤ) ≤ slide_index then
      (⟨false, some .slideIndexOutOfRange⟩, e)
    else
      match pyResolve pres.slides.length slide_index with
      | none => (⟨false, some .indexError⟩, e)
      | some k =>
        match pres.slides.get? k with
        | none => (⟨false, some .indexError⟩, e)
        | some slide =>
          let tables := slide.shapes.filter isTableShape
          if (tables.length : ℤ) ≤ table_index then
            (⟨false, some .tableIndexOutOfRange⟩, e)
          else
            match pyResolve tables.length table_index with
            | none => (⟨false, some .indexError⟩, e)
            | some tk =>
              match tables.get? tk with
              | some (Shape.table td) =>
                if (td.cells.length : ℤ) ≤ row ∨ (td.cols : ℤ) ≤ col then
                  (⟨false, some .cellOutOfRange⟩, e)
                else
                  match tableSetCell td row col text with
                  | none => (⟨false, some .indexError⟩, e)
                  | some td2 =>
                    let slide2 :=
                      { slide with shapes := replaceNthTable slide.shapes tk td2 }
                    let pres2 := { pres with slides := pres.slides.set k slide2 }
                    (⟨true, none⟩, { e with current_presentation := some pres2 })
              | _ => (⟨false, some .indexError⟩, e)

/-- The supported transition types (`tool.py` line 794). -/
def supported_transitions : List String :=
  ["none", "fade", "push", "wipe", "split", "zoom", "blinds", "dissolve"]

/-- Replace the editor's open document with one whose slide at position `k`
carries the markup children `el`. -/
def updateSlideElem (e : PowerPointEditor) (pres : Pres) (k : ℕ)
    (slide : Slide) (el : List XmlNode) : PowerPointEditor :=
  let pres2 := { pres with slides := pres.slides.set k { slide with element := el } }
  { e with current_presentation := some pres2 }

/-- `set_slide_transition` (`tool.py` lines 779-849): bounds-check, validate
the lowercased type against the supported list, remove any existing
transition fragment, and — unless the type is `"none"` — splice the encoded
fragment before the colour-map override (or append it) and re-query for its
presence, failing with the injection-verification error if absent. -/
def set_slide_transition (e : PowerPointEditor) (slide_index : ℤ)
    (transition_type : String) (duration : ℚ) (advance_on_click : Bool)
    (advance_after_time : Option ℚ) : OpResult × PowerPointEditor :=
  match e.current_presentation with
  | none => (⟨false, some .noOpenDocument⟩, e)
  | some pres =>
    if (pres.slides.length : ℤ) ≤ slide_index then
      (⟨false, some .slideIndexOutOfRange⟩, e)
    else
      match pyResolve pres.slides.length slide_index with
      | none => (⟨false, some .indexError⟩, e)
      | some k =>
        match pres.slides.get? k with
        | none => (⟨false, some .indexError⟩, e)
        | some slide =>
          let tl := pyLower transition_type
          if supported_transitions.contains tl = false then
            (⟨false, some .unsupportedTransitionType⟩, e)
          else
            let element1 := removeFirstTransition slide.element
            if tl = "none" then
              (⟨true, none⟩, updateSlideElem e pres k slide element1)
            else
              let frag := createTransitionXml transition_type duration
                advance_on_click advance_after_time
              let element2 := insertBeforeClrMapOvr (XmlNode.transition frag) element1
              let e2 := updateSlideElem e pres k slide element2
              if (element2.find? isTransitionNode).isSome then (⟨true, none⟩, e2)
              else (⟨false, some .injectionVerificationFailed⟩, e2)

/-- The markup children of a freshly added slide. Modelled from the spec: a
new slide part carries its structural body and a colour-map override node,
and no transition fragment. -/
def freshSlideElement : List XmlNode :=
  [XmlNode.cSld, XmlNode.clrMapOvr]

/-- `_copy_shape` applied across a slide's shapes (`tool.py` lines 456-458,
763-777): placeholders are skipped by the caller's `is_placeholder` test,
shapes without a text frame are skipped by the copy helper, and each text
box is re-created with the source's geometry and text only. -/
def copySlideShapes : List Shape → List Shape
  | [] => []
  | Shape.textBox t l tp w h _ _ :: rest =>
    Shape.textBox t l tp w h none none :: copySlideShapes rest
  | _ :: rest => copySlideShapes rest

/-- `move_slide` (`tool.py` lines 428-474): bounds-check both indices, no-op
success when they are equal; otherwise append a new slide built from the
source slide's layout, best-effort copy the shapes, and remove the original
entry from the raw reference list and the object-model sequence. The
source's ternary for `actual_from_index` yields `from_index` in both
branches and is embedded as such. -/
def move_slide (e : PowerPointEditor) (from_index to_index : ℤ) :
    OpResult × PowerPointEditor :=
  match e.current_presentation with
  | none => (⟨false, some .noOpenDocument⟩, e)
  | some pres =>
    if (pres.slides.length : ℤ) ≤ from_index ∨
        (pres.slides.length : ℤ) ≤ to_index then
      (⟨false, some .slideIndexOutOfRange⟩, e)
    else if from_index = to_index then (⟨true, none⟩, e)
    else
      match pyGet pres.slides from_index with
      | none => (⟨false, some .indexError⟩, e)
      | some source =>
        let newSlide : Slide :=
          { layout := source.layout
          , element := freshSlideElement
          , shapes := copySlideShapes source.shapes }
        let slides1 := pres.slides ++ [newSlide]
        let ids1 := pres.sldIdLst ++ [pres.sldIdLst.length]
        if from_index < (slides1.length : ℤ) - 1 then
          let actual_from_index := from_index
          match pyRemoveAt ids1 actual_from_index with
          | none =>
            let presA := { pres with slides := slides1, sldIdLst := ids1 }
            (⟨false, some .indexError⟩,
              { e with current_presentation := some presA })
          | some ids2 =>
            match pyRemoveAt slides1 actual_from_index with
            | none =>
              let presB := { pres with slides := slides1, sldIdLst := ids2 }
              (⟨false, some .indexError⟩,
                { e with current_presentation := some presB })
            | some slides2 =>
              let presC := { pres with slides := slides2, sldIdLst := ids2 }
              (⟨true, none⟩, { e with current_presentation := some presC })
        else
          let presD := { pres with slides := slides1, sldIdLst := ids1 }
          (⟨true, none⟩, { e with current_presentation := some presD })

/-- The loop body accumulator of `apply_transition_to_all_slides`
(`tool.py` lines 911-920): run `set_slide_transition` on each index in
order, counting successes and collecting the indices of failures, and
thread the editor state through. -/
def applyAux (transition_type : String) (duration : ℚ) :
    PowerPointEditor → List ℤ → ℕ × List ℤ × PowerPointEditor
  | e, [] => (0, [], e)
  | e, i :: rest =>
    let r := set_slide_transition e i transition_type duration true none
    let t := applyAux transition_type duration r.2 rest
    if r.1.success then (t.1 + 1, t.2.1, t.2.2)
    else (t.1, i :: t.2.1, t.2.2)

/-- `apply_transition_to_all_slides` (`tool.py` lines 901-942): fail when no
document is open or the document has no slides; otherwise run the loop over
`range(len(slides))` and return a full-success record or a partial-success
record carrying the failed indices. -/
def apply_transition_to_all_slides (e : PowerPointEditor)
    (transition_type : String) (duration : ℚ) :
    ApplyResult × PowerPointEditor :=
  match e.current_presentation with
  | none => (⟨false, some .noOpenDocument, 0, []⟩, e)
  | some pres =>
    if pres.slides.length = 0 then (⟨false, some .noSlides, 0, []⟩, e)
    else
      let t := applyAux transition_type duration e (pyRange pres.slides.length)
      let lenAfter := (slidesOf t.2.2).length
      if t.1 = lenAfter then (⟨true, none, lenAfter, []⟩, t.2.2)
      else (⟨true, none, t.1, t.2.1⟩, t.2.2)

/-! ## Helper lemmas -/

theorem pyResolve_nonneg {n : ℕ} {i : ℤ} (h0 : 0 ≤ i) (h1 : i < (n : ℤ)) :
    pyResolve n i = some i.toNat := by
  simp [pyResolve, h0, h1]

theorem pyResolve_neg_one {n : ℕ} (h : 1 ≤ n) :
    pyResolve n (-1) = some (n - 1) := by
  unfold pyResolve
  rw [if_neg (by omega), if_pos (by constructor <;> omega)]
  congr 1
  omega

theorem get?_eraseIdx_self {α : Type} :
    ∀ (l : List α) (k : ℕ), (l.eraseIdx k).get? k = l.get? (k + 1)
  | [], _ => by simp [List.eraseIdx]
  | _ :: _, 0 => by simp [List.eraseIdx]
  | _ :: l, k + 1 => by
    simpa [List.eraseIdx] using get?_eraseIdx_self l k

theorem countTransitions_removeFirst (l : List XmlNode) :
    countTransitions (removeFirstTransition l) = countTransitions l - 1 := by
  induction l with
  | nil => simp [removeFirstTransition, countTransitions]
  | cons x xs ih =>
    by_cases hx : isTransitionNode x
    · simp [removeFirstTransition, countTransitions, hx, List.filter_cons]
    · simpa [removeFirstTransition, countTransitions, hx, List.filter_cons] using ih

theorem removeFirst_of_countTransitions_zero {l : List XmlNode}
    (h : countTransitions l = 0) : removeFirstTransition l = l := by
  induction l with
  | nil => rfl
  | cons x xs ih =>
    cases hx : isTransitionNode x with
    | true => simp [countTransitions, List.filter_cons, hx] at h
    | false =>
      have hxs : countTransitions xs = 0 := by
        simp only [countTransitions, List.filter_cons, hx, if_false] at h ⊢
        simpa using h
      simp [removeFirstTransition, hx, ih hxs]

theorem countTransitions_insert (f : TransitionXml) (l : List XmlNode) :
    countTransitions (insertBeforeClrMapOvr (XmlNode.transition f) l) =
      countTransitions l + 1 := by
  induction l with
  | nil => simp [insertBeforeClrMapOvr, countTransitions, List.filter_cons, isTransitionNode]
  | cons x xs ih =>
    by_cases hx : x = XmlNode.clrMapOvr
    · subst hx
      simp [insertBeforeClrMapOvr, countTransitions, List.filter_cons, isTransitionNode]
    · by_cases ht : isTransitionNode x
      · simpa [insertBeforeClrMapOvr, hx, countTransitions, List.filter_cons, ht] using ih
      · simpa [insertBeforeClrMapOvr, hx, countTransitions, List.filter_cons, ht] using ih

theorem find?_insert_of_countTransitions_zero {l : List XmlNode}
    (f : TransitionXml) (h : countTransitions l = 0) :
    (insertBeforeClrMapOvr (XmlNode.transition f) l).find? isTransitionNode =
      some (XmlNode.transition f) := by
  induction l with
  | nil => simp [insertBeforeClrMapOvr, List.find?, isTransitionNode]
  | cons x xs ih =>
    by_cases hx : x = XmlNode.clrMapOvr
    · subst hx
      simp [insertBeforeClrMapOvr, List.find?, isTransitionNode]
    · have ht : isTransitionNode x = false := by
        by_contra hc
        simp [countTransitions, List.filter_cons,
          (Bool.not_eq_false _).mp hc] at h
      have hxs : countTransitions xs = 0 := by
        simpa [countTransitions, List.filter_cons, ht] using h
      simp [insertBeforeClrMapOvr, hx, List.find?, ht, ih hxs]

theorem find?_insert_isSome (f : TransitionXml) (l : List XmlNode) :
    ((insertBeforeClrMapOvr (XmlNode.transition f) l).find? isTransitionNode).isSome =
      true := by
  induction l with
  | nil => simp [insertBeforeClrMapOvr, List.find?, isTransitionNode]
  | cons x xs ih =>
    by_cases hx : x = XmlNode.clrMapOvr
    · subst hx
      simp [insertBeforeClrMapOvr, List.find?, isTransitionNode]
    · by_cases ht : isTransitionNode x
      · simp [insertBeforeClrMapOvr, hx, List.find?, ht]
      · simpa [insertBeforeClrMapOvr, hx, List.find?, ht] using ih

/-! ## Demonstration states used by the witnesses -/

/-- A slide with the usual structural children and no transition. -/
def demoSlide : Slide :=
  { layout := 1, element := [XmlNode.cSld, XmlNode.clrMapOvr], shapes := [] }

/-- A two-slide document with its reference list in lockstep. -/
def demoPres : Pres :=
  { slides := [demoSlide, demoSlide], sldIdLst := [0, 1] }

/-- An editor with the two-slide document open. -/
def demoE : PowerPointEditor :=
  { current_presentation := some demoPres, current_file_path := none }

/-- An editor with an open document holding zero slides. -/
def emptyE : PowerPointEditor :=
  { current_presentation := some { slides := [], sldIdLst := [] }
  , current_file_path := none }

/-! ## Claim theorems -/

/-- C1: for every open document whose object-model sequence and raw
reference list are in lockstep, and every valid slide index
`0 ≤ i < slide_count`, `delete_slide i` succeeds, the slide count drops by
one, the slide previously at `i + 1` is now at `i`, and both the
object-model sequence and the raw slide-reference list have exactly the
entry at position `i` removed (staying in lockstep). -/
theorem delete_slide_valid_c1 (e : PowerPointEditor) (pres : Pres) (i : ℤ)
    (hO : e.current_presentation = some pres)
    (hL : pres.sldIdLst.length = pres.slides.length)
    (h0 : 0 ≤ i) (h1 : i < (pres.slides.length : ℤ)) :
    (delete_slide e i).1 = ⟨true, none⟩ ∧
    slidesOf (delete_slide e i).2 = pres.slides.eraseIdx i.toNat ∧
    idsOf (delete_slide e i).2 = pres.sldIdLst.eraseIdx i.toNat ∧
    (slidesOf (delete_slide e i).2).length = pres.slides.length - 1 ∧
    (idsOf (delete_slide e i).2).length = (slidesOf (delete_slide e i).2).length ∧
    (slidesOf (delete_slide e i).2).get? i.toNat = pres.slides.get? (i.toNat + 1) := by
  have hg : ¬ ((pres.slides.length : ℤ) ≤ i) := by omega
  have hk : i.toNat < pres.slides.length := by omega
  have hget : pyGet pres.slides i = some (pres.slides.get ⟨i.toNat, hk⟩) := by
    simp [pyGet, pyResolve_nonneg h0 h1, List.get?_eq_get hk]
  have hrem1 : pyRemoveAt pres.sldIdLst i = some (pres.sldIdLst.eraseIdx i.toNat) := by
    simp [pyRemoveAt, pyResolve_nonneg h0 (by omega : i < (pres.sldIdLst.length : ℤ))]
  have hrem2 : pyRemoveAt pres.slides i = some (pres.slides.eraseIdx i.toNat) := by
    simp [pyRemoveAt, pyResolve_nonneg h0 h1]
  refine ⟨?_, ?_, ?_, ?_, ?_, ?_⟩ <;>
    simp only [delete_slide, hO, hg, if_false, hget, hrem1, hrem2, slidesOf, idsOf] <;>
    try rfl
  · rw [List.length_eraseIdx]
    simp [hk]
  · rw [List.length_eraseIdx, List.length_eraseIdx]
    simp only [hL]
  · exact get?_eraseIdx_self pres.slides i.toNat

/-- Witness for C1 at a concrete two-slide document and index 0. -/
theorem delete_slide_valid_c1_witness :
    (delete_slide demoE 0).1 = ⟨true, none⟩ ∧
    slidesOf (delete_slide demoE 0).2 = demoPres.slides.eraseIdx (0 : ℤ).toNat ∧
    idsOf (delete_slide demoE 0).2 = demoPres.sldIdLst.eraseIdx (0 : ℤ).toNat ∧
    (slidesOf (delete_slide demoE 0).2).length = demoPres.slides.length - 1 ∧
    (idsOf (delete_slide demoE 0).2).length = (slidesOf (delete_slide demoE 0).2).length ∧
    (slidesOf (delete_slide demoE 0).2).get? (0 : ℤ).toNat =
      demoPres.slides.get? ((0 : ℤ).toNat + 1) :=
  delete_slide_valid_c1 demoE demoPres 0 rfl (by decide) (by decide) (by decide)

/-- C5: the encoded fragment's speed is derived from the duration alone by
the thresholds `duration ≤ 0.5 → fast`, `0.5 < duration ≤ 2 → med`,
`2 < duration → slow` (independent of every other argument), and the
click-advance flag and the timed-advance attribute are independent flags
that one fragment can carry simultaneously. -/
theorem transition_speed_encoding_c5 :
    ∀ (ty : String) (d : ℚ) (c : Bool) (a : Option ℚ),
      ((createTransitionXml ty d c a).spd = Speed.fast ↔ d ≤ 1/2) ∧
      ((createTransitionXml ty d c a).spd = Speed.med ↔ 1/2 < d ∧ d ≤ 2) ∧
      ((createTransitionXml ty d c a).spd = Speed.slow ↔ 2 < d) ∧
      (∀ (ty2 : String) (c2 : Bool) (a2 : Option ℚ),
        (createTransitionXml ty2 d c2 a2).spd = (createTransitionXml ty d c a).spd) ∧
      ∀ t : ℚ, (createTransitionXml ty d true (some t)).advClick = true ∧
        (createTransitionXml ty d true (some t)).advTm = some (pyTrunc (t * 1000)) := by
  intro ty d c a
  refine ⟨?_, ?_, ?_, fun ty2 c2 a2 => rfl, fun t => ⟨rfl, rfl⟩⟩ <;>
    simp only [createTransitionXml] <;>
    split_ifs with h1 h2 <;> simp_all <;> linarith

/-- C8: `move_slide a a` on a valid index is a no-op returning success: the
editor state, and with it the slide count and the content of every slide,
is unchanged. -/
theorem move_slide_noop_c8 (e : PowerPointEditor) (pres : Pres) (a : ℤ)
    (hO : e.current_presentation = some pres)
    (h0 : 0 ≤ a) (h1 : a < (pres.slides.length : ℤ)) :
    move_slide e a a = (⟨true, none⟩, e) ∧
    slidesOf (move_slide e a a).2 = slidesOf e ∧
    (slidesOf (move_slide e a a).2).length = pres.slides.length := by
  have hg : ¬ (((pres.slides.length : ℤ) ≤ a) ∨ ((pres.slides.length : ℤ) ≤ a)) := by
    omega
  have hmain : move_slide e a a = (⟨true, none⟩, e) := by
    simp only [move_slide, hO]
    rw [if_neg hg]
    simp
  refine ⟨hmain, by rw [hmain], by rw [hmain]; simp [slidesOf, hO]⟩

/-- Witness for C8 at a concrete two-slide document and index 1. -/
theorem move_slide_noop_c8_witness :
    move_slide demoE 1 1 = (⟨true, none⟩, demoE) ∧
    slidesOf (move_slide demoE 1 1).2 = slidesOf demoE ∧
    (slidesOf (move_slide demoE 1 1).2).length = demoPres.slides.length :=
  move_slide_noop_c8 demoE demoPres 1 rfl (by decide) (by decide)

/-- C10: on an open document with zero slides,
`apply_transition_to_all_slides` returns a failure result (success `false`
with the no-slides error) instead of succeeding vacuously, and leaves the
editor unchanged. -/
theorem apply_all_empty_c10 (e : PowerPointEditor) (pres : Pres)
    (ty : String) (d : ℚ)
    (hO : e.current_presentation = some pres) (hE : pres.slides = []) :
    (apply_transition_to_all_slides e ty d).1.success = false ∧
    (apply_transition_to_all_slides e ty d).1.error = some ErrKind.noSlides ∧
    (apply_transition_to_all_slides e ty d).2 = e := by
  simp [apply_transition_to_all_slides, hO, hE]

/-- Witness for C10 at a concrete empty document. -/
theorem apply_all_empty_c10_witness :
    (apply_transition_to_all_slides emptyE "fade" 1).1.success = false ∧
    (apply_transition_to_all_slides emptyE "fade" 1).1.error = some ErrKind.noSlides ∧
    (apply_transition_to_all_slides emptyE "fade" 1).2 = emptyE :=
  apply_all_empty_c10 emptyE _ "fade" 1 rfl rfl

theorem get?_set_self {α : Type} (l : List α) (n : ℕ) (a : α) (h : n < l.length) :
    (l.set n a).get? n = some a := by
  rw [List.get?_set_eq, List.get?_eq_get h]
  rfl

theorem set_transition_unsupported_eq (e : PowerPointEditor) (pres : Pres)
    (i : ℤ) (slide : Slide) (ty : String) (d : ℚ) (c : Bool) (a : Option ℚ)
    (hO : e.current_presentation = some pres)
    (h0 : 0 ≤ i) (h1 : i < (pres.slides.length : ℤ))
    (hS : pres.slides.get? i.toNat = some slide)
    (hc : supported_transitions.contains (pyLower ty) = false) :
    set_slide_transition e i ty d c a =
      (⟨false, some .unsupportedTransitionType⟩, e) := by
  have hg : ¬ ((pres.slides.length : ℤ) ≤ i) := by omega
  simp only [set_slide_transition, hO, hg, if_false, pyResolve_nonneg h0 h1, hS, hc]
  simp

theorem set_transition_none_eq (e : PowerPointEditor) (pres : Pres)
    (i : ℤ) (slide : Slide) (ty : String) (d : ℚ) (c : Bool) (a : Option ℚ)
    (hO : e.current_presentation = some pres)
    (h0 : 0 ≤ i) (h1 : i < (pres.slides.length : ℤ))
    (hS : pres.slides.get? i.toNat = some slide)
    (hn : pyLower ty = "none") :
    set_slide_transition e i ty d c a =
      (⟨true, none⟩,
        updateSlideElem e pres i.toNat slide (removeFirstTransition slide.element)) := by
  have hg : ¬ ((pres.slides.length : ℤ) ≤ i) := by omega
  have hc : supported_transitions.contains (pyLower ty) = true := by
    rw [hn]; decide
  simp only [set_slide_transition, hO, hg, if_false, pyResolve_nonneg h0 h1, hS, hc, hn]
  simp
  decide

theorem set_transition_insert_eq (e : PowerPointEditor) (pres : Pres)
    (i : ℤ) (slide : Slide) (ty : String) (d : ℚ) (c : Bool) (a : Option ℚ)
    (hO : e.current_presentation = some pres)
    (h0 : 0 ≤ i) (h1 : i < (pres.slides.length : ℤ))
    (hS : pres.slides.get? i.toNat = some slide)
    (hc : supported_transitions.contains (pyLower ty) = true)
    (hn : pyLower ty ≠ "none") :
    set_slide_transition e i ty d c a =
      (⟨true, none⟩,
        updateSlideElem e pres i.toNat slide
          (insertBeforeClrMapOvr
            (XmlNode.transition (createTransitionXml ty d c a))
            (removeFirstTransition slide.element))) := by
  have hg : ¬ ((pres.slides.length : ℤ) ≤ i) := by omega
  simp only [set_slide_transition, hO, hg, if_false, pyResolve_nonneg h0 h1, hS, hc,
    hn, find?_insert_isSome]
  simp [hn, find?_insert_isSome]

/-- C6: on an open document and valid slide index,
`set_slide_transition` fails with the unsupported-transition-type error
exactly when the lowercased type is not one of the eight supported kinds;
on that failure the editor (and so the slide's markup) is unchanged, and on
a supported type the operation succeeds. -/
theorem set_transition_validation_c6 (e : PowerPointEditor) (pres : Pres)
    (i : ℤ) (ty : String) (d : ℚ) (c : Bool) (a : Option ℚ)
    (hO : e.current_presentation = some pres)
    (h0 : 0 ≤ i) (h1 : i < (pres.slides.length : ℤ)) :
    ((set_slide_transition e i ty d c a).1.error =
        some ErrKind.unsupportedTransitionType ↔
      supported_transitions.contains (pyLower ty) = false) ∧
    (supported_transitions.contains (pyLower ty) = false →
      set_slide_transition e i ty d c a =
        (⟨false, some ErrKind.unsupportedTransitionType⟩, e)) ∧
    (supported_transitions.contains (pyLower ty) = true →
      (set_slide_transition e i ty d c a).1 = ⟨true, none⟩) := by
  have hk : i.toNat < pres.slides.length := by omega
  obtain ⟨slide, hS⟩ : ∃ s, pres.slides.get? i.toNat = some s :=
    ⟨_, List.get?_eq_get hk⟩
  cases hc : supported_transitions.contains (pyLower ty) with
  | false =>
    rw [set_transition_unsupported_eq e pres i slide ty d c a hO h0 h1 hS hc]
    simp
  | true =>
    by_cases hn : pyLower ty = "none"
    · rw [set_transition_none_eq e pres i slide ty d c a hO h0 h1 hS hn]
      simp
    · rw [set_transition_insert_eq e pres i slide ty d c a hO h0 h1 hS hc hn]
      simp

/-- Witness for C6 at a concrete document with an unsupported type string. -/
theorem set_transition_validation_c6_witness :
    ((set_slide_transition demoE 0 "whirl" 1 true none).1.error =
        some ErrKind.unsupportedTransitionType ↔
      supported_transitions.contains (pyLower "whirl") = false) ∧
    (supported_transitions.contains (pyLower "whirl") = false →
      set_slide_transition demoE 0 "whirl" 1 true none =
        (⟨false, some ErrKind.unsupportedTransitionType⟩, demoE)) ∧
    (supported_transitions.contains (pyLower "whirl") = true →
      (set_slide_transition demoE 0 "whirl" 1 true none).1 = ⟨true, none⟩) :=
  set_transition_validation_c6 demoE demoPres 0 "whirl" 1 true none rfl
    (by decide) (by decide)

/-- C7: on an open document, valid slide index and a slide carrying at most
one transition fragment, setting the transition with type `none` succeeds
and leaves the slide with no transition fragment; and no
`set_slide_transition` call with a supported non-`none` type ever leaves a
slide without a fragment, so the `none` call is the only set call that
clears a transition. -/
theorem set_transition_none_clears_c7 (e : PowerPointEditor) (pres : Pres)
    (i : ℤ) (slide : Slide) (ty : String) (d : ℚ) (c : Bool) (a : Option ℚ)
    (hO : e.current_presentation = some pres)
    (h0 : 0 ≤ i) (h1 : i < (pres.slides.length : ℤ))
    (hS : pres.slides.get? i.toNat = some slide)
    (hinv : countTransitions slide.element ≤ 1)
    (hn : pyLower ty = "none") :
    (set_slide_transition e i ty d c a).1 = ⟨true, none⟩ ∧
    ((slidesOf (set_slide_transition e i ty d c a).2).get? i.toNat).map
        (fun s => countTransitions s.element) = some 0 ∧
    (∀ (e2 : PowerPointEditor) (pres2 : Pres) (i2 : ℤ) (slide2 : Slide)
      (ty2 : String) (d2 : ℚ) (c2 : Bool) (a2 : Option ℚ),
      e2.current_presentation = some pres2 → 0 ≤ i2 →
      i2 < (pres2.slides.length : ℤ) →
      pres2.slides.get? i2.toNat = some slide2 →
      supported_transitions.contains (pyLower ty2) = true → pyLower ty2 ≠ "none" →
      ((slidesOf (set_slide_transition e2 i2 ty2 d2 c2 a2).2).get? i2.toNat).map
          (fun s => countTransitions s.element) ≠ some 0) := by
  have hk : i.toNat < pres.slides.length := by omega
  rw [set_transition_none_eq e pres i slide ty d c a hO h0 h1 hS hn]
  refine ⟨rfl, ?_, ?_⟩
  · have hlen : i.toNat < (pres.slides.set i.toNat
        { slide with element := removeFirstTransition slide.element }).length := by
      simpa using hk
    simp only [updateSlideElem, slidesOf]
    rw [get?_set_self _ _ _ (by simpa using hk)]
    simp only [Option.map_some']
    rw [countTransitions_removeFirst]
    simp only [Option.some.injEq]
    omega
  · intro e2 pres2 i2 slide2 ty2 d2 c2 a2 hO2 h02 h12 hS2 hc2 hn2
    have hk2 : i2.toNat < pres2.slides.length := by omega
    rw [set_transition_insert_eq e2 pres2 i2 slide2 ty2 d2 c2 a2 hO2 h02 h12 hS2 hc2 hn2]
    simp only [updateSlideElem, slidesOf]
    rw [get?_set_self _ _ _ (by simpa using hk2)]
    simp only [Option.map_some']
    rw [countTransitions_insert]
    simp

/-- Witness for C7 at a concrete document: the `none` call on slide 0 and a
contrasting `fade` call that leaves a fragment behind. -/
theorem set_transition_none_clears_c7_witness :
    (set_slide_transition demoE 0 "none" 1 true none).1 = ⟨true, none⟩ ∧
    ((slidesOf (set_slide_transition demoE 0 "none" 1 true none).2).get?
        (0 : ℤ).toNat).map (fun s => countTransitions s.element) = some 0 ∧
    ((slidesOf (set_slide_transition demoE 0 "fade" 1 true none).2).get?
        (0 : ℤ).toNat).map (fun s => countTransitions s.element) ≠ some 0 := by
  have h := set_transition_none_clears_c7 demoE demoPres 0 demoSlide "none" 1 true
    none rfl (by decide) (by decide) rfl (by decide) (by decide)
  exact ⟨h.1, h.2.1, h.2.2 demoE demoPres 0 demoSlide "fade" 1 true none rfl
    (by decide) (by decide) rfl (by decide) (by decide)⟩

/-- The per-slide transition invariant: every slide of the open document
carries at most one transition fragment. -/
@[reducible] def TransitionInvariant (e : PowerPointEditor) : Prop :=
  ∀ s ∈ slidesOf e, countTransitions s.element ≤ 1

/-- A sequence of `set_slide_transition` calls
(index, type, duration, advance-on-click, advance-after-time). -/
def applySets (e : PowerPointEditor) :
    List (ℤ × String × ℚ × Bool × Option ℚ) → PowerPointEditor
  | [] => e
  | c :: rest =>
    applySets (set_slide_transition e c.1 c.2.1 c.2.2.1 c.2.2.2.1 c.2.2.2.2).2 rest

theorem invariant_updateSlideElem (e : PowerPointEditor) (pres : Pres) (k : ℕ)
    (slide : Slide) (el : List XmlNode)
    (hO : e.current_presentation = some pres)
    (h : TransitionInvariant e)
    (hel : countTransitions el ≤ 1) :
    TransitionInvariant (updateSlideElem e pres k slide el) := by
  intro s hs
  simp only [updateSlideElem, slidesOf] at hs
  rcases List.mem_or_eq_of_mem_set hs with hmem | rfl
  · exact h s (by simp only [slidesOf, hO]; exact hmem)
  · simpa using hel

theorem set_transition_result_cases (e : PowerPointEditor) (i : ℤ) (ty : String)
    (d : ℚ) (c : Bool) (a : Option ℚ) :
    (set_slide_transition e i ty d c a).2 = e ∨
    ∃ (pres : Pres) (k : ℕ) (slide : Slide),
      e.current_presentation = some pres ∧
      pres.slides.get? k = some slide ∧
      ((set_slide_transition e i ty d c a).2 =
          updateSlideElem e pres k slide (removeFirstTransition slide.element) ∨
        ∃ f : TransitionXml,
          (set_slide_transition e i ty d c a).2 =
            updateSlideElem e pres k slide
              (insertBeforeClrMapOvr (XmlNode.transition f)
                (removeFirstTransition slide.element))) := by
  unfold set_slide_transition
  cases hP : e.current_presentation with
  | none => left; rfl
  | some pres =>
    by_cases hg : (pres.slides.length : ℤ) ≤ i
    · left; simp [hg]
    · cases hR : pyResolve pres.slides.length i with
      | none => left; simp [hg, hR]
      | some k =>
        cases hS : pres.slides.get? k with
        | none =>
          left
          simp only [hg, if_false, hR, hS]
        | some slide =>
          by_cases hc : supported_transitions.contains (pyLower ty) = false
          · left
            simp only [hg, if_false, hR, hS, hc]
            rfl
          · have hcc : supported_transitions.contains (pyLower ty) = true := by
              revert hc
              cases supported_transitions.contains (pyLower ty) <;> simp
            by_cases hn : pyLower ty = "none"
            · right
              refine ⟨pres, k, slide, rfl, hS, Or.inl ?_⟩
              simp only [hg, if_false, hR, hS, hcc, hn, Bool.true_eq_false]
              rfl
            · right
              refine ⟨pres, k, slide, rfl, hS,
                Or.inr ⟨createTransitionXml ty d c a, ?_⟩⟩
              simp only [hg, if_false, hR, hS, hcc, hn, Bool.true_eq_false]
              split <;> rfl

theorem set_transition_preserves_invariant (e : PowerPointEditor) (i : ℤ)
    (ty : String) (d : ℚ) (c : Bool) (a : Option ℚ)
    (h : TransitionInvariant e) :
    TransitionInvariant (set_slide_transition e i ty d c a).2 := by
  rcases set_transition_result_cases e i ty d c a with he | ⟨pres, k, slide, hO, hS, hcase⟩
  · rw [he]; exact h
  · have hcount : countTransitions slide.element ≤ 1 :=
      h slide (by simp only [slidesOf, hO]; exact List.get?_mem hS)
    rcases hcase with h2 | ⟨f, h2⟩
    · rw [h2]
      exact invariant_updateSlideElem e pres k slide _ hO h
        (by rw [countTransitions_removeFirst]; omega)
    · rw [h2]
      exact invariant_updateSlideElem e pres k slide _ hO h
        (by rw [countTransitions_insert, countTransitions_removeFirst]; omega)

theorem applySets_preserves_invariant :
    ∀ (calls : List (ℤ × String × ℚ × Bool × Option ℚ)) (e : PowerPointEditor),
      TransitionInvariant e → TransitionInvariant (applySets e calls)
  | [], _, h => h
  | _ :: rest, _, h =>
    applySets_preserves_invariant rest _
      (set_transition_preserves_invariant _ _ _ _ _ _ h)

/-- C2: the at-most-one-transition-fragment invariant is preserved by any
sequence of `set_slide_transition` calls; and on an open document, valid
slide index and two supported non-`none` descriptors, setting the first and
then the second leaves exactly one transition fragment on that slide, and
the fragment present is the encoding of the second descriptor. -/
theorem transition_replacement_c2 :
    (∀ (e : PowerPointEditor) (calls : List (ℤ × String × ℚ × Bool × Option ℚ)),
      TransitionInvariant e → TransitionInvariant (applySets e calls)) ∧
    (∀ (e : PowerPointEditor) (pres : Pres) (i : ℤ) (slide : Slide)
      (ty1 ty2 : String) (d1 d2 : ℚ) (c1 c2 : Bool) (a1 a2 : Option ℚ),
      e.current_presentation = some pres → 0 ≤ i →
      i < (pres.slides.length : ℤ) →
      pres.slides.get? i.toNat = some slide →
      countTransitions slide.element ≤ 1 →
      supported_transitions.contains (pyLower ty1) = true → pyLower ty1 ≠ "none" →
      supported_transitions.contains (pyLower ty2) = true → pyLower ty2 ≠ "none" →
      ((slidesOf (set_slide_transition
            (set_slide_transition e i ty1 d1 c1 a1).2 i ty2 d2 c2 a2).2).get?
          i.toNat).map (fun s => countTransitions s.element) = some 1 ∧
      ((slidesOf (set_slide_transition
            (set_slide_transition e i ty1 d1 c1 a1).2 i ty2 d2 c2 a2).2).get?
          i.toNat).bind (fun s => s.element.find? isTransitionNode) =
        some (XmlNode.transition (createTransitionXml ty2 d2 c2 a2))) := by
  constructor
  · intro e calls h
    exact applySets_preserves_invariant calls e h
  · intro e pres i slide ty1 ty2 d1 d2 c1 c2 a1 a2 hO h0 h1 hS hinv hc1 hn1 hc2 hn2
    have hk : i.toNat < pres.slides.length := by omega
    set el1 := insertBeforeClrMapOvr
      (XmlNode.transition (createTransitionXml ty1 d1 c1 a1))
      (removeFirstTransition slide.element) with hel1
    have h1eq := set_transition_insert_eq e pres i slide ty1 d1 c1 a1 hO h0 h1 hS hc1 hn1
    have hsnd : (set_slide_transition e i ty1 d1 c1 a1).2 =
        updateSlideElem e pres i.toNat slide el1 := by rw [h1eq]
    rw [hsnd]
    set pres1 : Pres :=
      { pres with slides := pres.slides.set i.toNat { slide with element := el1 } }
      with hpres1
    have hO2 : (updateSlideElem e pres i.toNat slide el1).current_presentation =
        some pres1 := rfl
    have h12 : i < (pres1.slides.length : ℤ) := by
      simp only [hpres1, List.length_set]
      exact h1
    have hS2 : pres1.slides.get? i.toNat = some { slide with element := el1 } :=
      get?_set_self _ _ _ hk
    have h2eq := set_transition_insert_eq (updateSlideElem e pres i.toNat slide el1)
      pres1 i { slide with element := el1 } ty2 d2 c2 a2 hO2 h0 h12 hS2 hc2 hn2
    rw [h2eq]
    have hk2 : i.toNat < pres1.slides.length := by
      simp only [hpres1, List.length_set]
      exact hk
    have hc0 : countTransitions (removeFirstTransition el1) = 0 := by
      rw [countTransitions_removeFirst, hel1, countTransitions_insert,
        countTransitions_removeFirst]
      omega
    constructor
    · simp only [updateSlideElem, slidesOf]
      rw [get?_set_self _ _ _ hk2]
      simp only [Option.map_some']
      rw [countTransitions_insert, hc0]
    · simp only [updateSlideElem, slidesOf]
      rw [get?_set_self _ _ _ hk2]
      simp only [Option.some_bind]
      exact find?_insert_of_countTransitions_zero _ hc0

/-- Witness for C2 at a concrete document: a `push` set followed by a `fade`
set on slide 0, plus the invariant after that same sequence. -/
theorem transition_replacement_c2_witness :
    TransitionInvariant
      (applySets demoE [(0, "push", 1, true, none), (0, "fade", 1, true, none)]) ∧
    ((slidesOf (set_slide_transition
          (set_slide_transition demoE 0 "push" 1 true none).2
          0 "fade" 1 true none).2).get? (0 : ℤ).toNat).map
        (fun s => countTransitions s.element) = some 1 ∧
    ((slidesOf (set_slide_transition
          (set_slide_transition demoE 0 "push" 1 true none).2
          0 "fade" 1 true none).2).get? (0 : ℤ).toNat).bind
        (fun s => s.element.find? isTransitionNode) =
      some (XmlNode.transition (createTransitionXml "fade" 1 true none)) := by
  have h2 := transition_replacement_c2.2 demoE demoPres 0 demoSlide "push" "fade"
    1 1 true true none none rfl (by decide) (by decide) rfl (by decide)
    (by decide) (by decide) (by decide) (by decide)
  exact ⟨transition_replacement_c2.1 demoE _ (by decide), h2.1, h2.2⟩

/-- C9: for the public operations taking a slide index, the bounds check
rejects with the slide-index-out-of-range error exactly the indices
`i ≥ slide_count` (a negative index is never rejected by it); consequently
`delete_slide (-1)` on a non-empty lockstep document succeeds and removes
the last slide. -/
theorem negative_index_c9 :
    (∀ (e : PowerPointEditor) (pres : Pres) (i : ℤ),
      e.current_presentation = some pres →
      ((delete_slide e i).1.error = some ErrKind.slideIndexOutOfRange ↔
        (pres.slides.length : ℤ) ≤ i)) ∧
    (∀ (e : PowerPointEditor) (pres : Pres) (i : ℤ) (text : String)
      (l t w h : ℚ) (fs : ℕ) (fc : String),
      e.current_presentation = some pres →
      ((add_text_box e i text l t w h fs fc).1.error =
          some ErrKind.slideIndexOutOfRange ↔ (pres.slides.length : ℤ) ≤ i)) ∧
    (∀ (e : PowerPointEditor) (pres : Pres) (i : ℤ) (ty : String) (d : ℚ)
      (c : Bool) (a : Option ℚ),
      e.current_presentation = some pres →
      ((set_slide_transition e i ty d c a).1.error =
          some ErrKind.slideIndexOutOfRange ↔ (pres.slides.length : ℤ) ≤ i)) ∧
    (∀ (e : PowerPointEditor) (pres : Pres),
      e.current_presentation = some pres →
      pres.sldIdLst.length = pres.slides.length →
      1 ≤ pres.slides.length →
      (delete_slide e (-1)).1.success = true ∧
      slidesOf (delete_slide e (-1)).2 = pres.slides.dropLast ∧
      (slidesOf (delete_slide e (-1)).2).length = pres.slides.length - 1) := by
  refine ⟨?_, ?_, ?_, ?_⟩
  · intro e pres i hO
    constructor
    · intro hErr
      by_contra hge
      push_neg at hge
      simp only [delete_slide, hO] at hErr
      rw [if_neg (not_le.mpr hge)] at hErr
      cases hq : pyGet pres.slides i with
      | none => rw [hq] at hErr; simp at hErr
      | some s =>
        rw [hq] at hErr
        cases hr1 : pyRemoveAt pres.sldIdLst i with
        | none => rw [hr1] at hErr; simp at hErr
        | some ids2 =>
          rw [hr1] at hErr
          cases hr2 : pyRemoveAt pres.slides i with
          | none => rw [hr2] at hErr; simp at hErr
          | some s2 => rw [hr2] at hErr; simp at hErr
    · intro hge
      simp only [delete_slide, hO]
      rw [if_pos hge]
  · intro e pres i text l t w h fs fc hO
    constructor
    · intro hErr
      by_contra hge
      push_neg at hge
      simp only [add_text_box, hO] at hErr
      rw [if_neg (not_le.mpr hge)] at hErr
      cases hR : pyResolve pres.slides.length i with
      | none => rw [hR] at hErr; simp at hErr
      | some k =>
        simp only [hR] at hErr
        cases hq : pres.slides.get? k with
        | none => simp only [hq] at hErr; simp at hErr
        | some s => simp only [hq] at hErr; simp at hErr
    · intro hge
      simp only [add_text_box, hO]
      rw [if_pos hge]
  · intro e pres i ty d c a hO
    constructor
    · intro hErr
      by_contra hge
      push_neg at hge
      simp only [set_slide_transition, hO] at hErr
      rw [if_neg (not_le.mpr hge)] at hErr
      cases hR : pyResolve pres.slides.length i with
      | none => rw [hR] at hErr; simp at hErr
      | some k =>
        simp only [hR] at hErr
        cases hq : pres.slides.get? k with
        | none => simp only [hq] at hErr; simp at hErr
        | some s =>
          simp only [hq] at hErr
          by_cases hc : supported_transitions.contains (pyLower ty) = false
          · rw [if_pos hc] at hErr
            simp at hErr
          · rw [if_neg hc] at hErr
            by_cases hn : pyLower ty = "none"
            · rw [if_pos hn] at hErr
              simp at hErr
            · rw [if_neg hn] at hErr
              revert hErr
              split <;> simp
    · intro hge
      simp only [set_slide_transition, hO]
      rw [if_pos hge]
  · intro e pres hO hL h1
    have hg : ¬ ((pres.slides.length : ℤ) ≤ (-1 : ℤ)) := by omega
    have hkk : pres.slides.length - 1 < pres.slides.length := by omega
    have hget : pyGet pres.slides (-1) =
        some (pres.slides.get ⟨pres.slides.length - 1, hkk⟩) := by
      simp [pyGet, pyResolve_neg_one h1, List.get?_eq_get hkk]
    have hrem1 : pyRemoveAt pres.sldIdLst (-1) =
        some (pres.sldIdLst.eraseIdx (pres.sldIdLst.length - 1)) := by
      simp [pyRemoveAt, pyResolve_neg_one (by omega : 1 ≤ pres.sldIdLst.length)]
    have hrem2 : pyRemoveAt pres.slides (-1) =
        some (pres.slides.eraseIdx (pres.slides.length - 1)) := by
      simp [pyRemoveAt, pyResolve_neg_one h1]
    have hdrop : pres.slides.dropLast = pres.slides.eraseIdx (pres.slides.length - 1) :=
      List.dropLast_eq_eraseIdx (by omega)
    refine ⟨?_, ?_, ?_⟩ <;>
      simp only [delete_slide, hO, hg, if_false, hget, hrem1, hrem2, slidesOf, hdrop] <;>
      try rfl
    rw [List.length_eraseIdx]
    simp [hkk]

/-- Witness for C9 at a concrete two-slide document: index 5 is rejected as
out of range, while index -1 deletes the last slide. -/
theorem negative_index_c9_witness :
    ((delete_slide demoE 5).1.error = some ErrKind.slideIndexOutOfRange ↔
      (demoPres.slides.length : ℤ) ≤ 5) ∧
    (delete_slide demoE (-1)).1.success = true ∧
    slidesOf (delete_slide demoE (-1)).2 = demoPres.slides.dropLast ∧
    (slidesOf (delete_slide demoE (-1)).2).length = demoPres.slides.length - 1 := by
  have h4 := negative_index_c9.2.2.2 demoE demoPres rfl (by decide) (by decide)
  exact ⟨negative_index_c9.1 demoE demoPres 5 rfl, h4.1, h4.2.1, h4.2.2⟩

theorem filter_replaceNthTable (shapes : List Shape) (k : ℕ) (td : TableData) :
    (replaceNthTable shapes k td).filter isTableShape =
      (shapes.filter isTableShape).set k (Shape.table td) := by
  induction shapes generalizing k with
  | nil => simp [replaceNthTable]
  | cons s rest ih =>
    cases s with
    | table t =>
      cases k with
      | zero => simp [replaceNthTable, List.filter_cons, isTableShape]
      | succ k2 => simp [replaceNthTable, List.filter_cons, isTableShape, ih]
    | textBox a b c d f g h => simp [replaceNthTable, List.filter_cons, isTableShape, ih]
    | picture => simp [replaceNthTable, List.filter_cons, isTableShape, ih]
    | placeholder => simp [replaceNthTable, List.filter_cons, isTableShape, ih]

theorem isTableShape_table (t : TableData) : isTableShape (Shape.table t) = true := rfl

theorem isTableShape_textBox (a : String) (b c d f : ℚ) (g : Option ℕ)
    (h : Option String) : isTableShape (Shape.textBox a b c d f g h) = false := rfl

theorem isTableShape_picture : isTableShape Shape.picture = false := rfl

theorem isTableShape_placeholder : isTableShape Shape.placeholder = false := rfl

theorem filter_not_replaceNthTable (shapes : List Shape) (k : ℕ) (td : TableData) :
    (replaceNthTable shapes k td).filter (fun s => !(isTableShape s)) =
      shapes.filter (fun s => !(isTableShape s)) := by
  induction shapes generalizing k with
  | nil => simp [replaceNthTable]
  | cons s rest ih =>
    cases s with
    | table t =>
      cases k with
      | zero => simp [replaceNthTable, List.filter_cons, isTableShape_table]
      | succ k2 => simp [replaceNthTable, List.filter_cons, isTableShape_table, ih]
    | textBox a b c d f g h =>
      simp [replaceNthTable, List.filter_cons, isTableShape_textBox, ih]
    | picture => simp [replaceNthTable, List.filter_cons, isTableShape_picture, ih]
    | placeholder => simp [replaceNthTable, List.filter_cons, isTableShape_placeholder, ih]

/-- C4: `set_table_cell_text` addresses the `table_index`-th table-variant
shape in the slide's shape order (skipping non-table shapes — not a global
shape index): on success only that filtered entry changes and every
non-table shape survives unchanged; and whenever `(row, col)` lies outside
the located table's declared row/column counts, the operation fails with an
index-out-of-range error and the editor (hence the table) is unmodified. -/
theorem set_table_cell_c4 (e : PowerPointEditor) (pres : Pres) (si : ℤ)
    (slide : Slide) (ti r c : ℤ) (td : TableData) (text : String)
    (hO : e.current_presentation = some pres)
    (h0 : 0 ≤ si) (h1 : si < (pres.slides.length : ℤ))
    (hS : pres.slides.get? si.toNat = some slide)
    (ht0 : 0 ≤ ti)
    (hT : (slide.shapes.filter isTableShape).get? ti.toNat = some (Shape.table td)) :
    ((¬ (0 ≤ r ∧ r < (td.cells.length : ℤ) ∧ 0 ≤ c ∧ c < (td.cols : ℤ))) →
      (set_table_cell_text e si ti r c text).2 = e ∧
      (set_table_cell_text e si ti r c text).1.success = false ∧
      ((set_table_cell_text e si ti r c text).1.error = some ErrKind.cellOutOfRange ∨
        (set_table_cell_text e si ti r c text).1.error = some ErrKind.indexError)) ∧
    ((0 ≤ r ∧ r < (td.cells.length : ℤ) ∧ 0 ≤ c ∧ c < (td.cols : ℤ)) →
      (set_table_cell_text e si ti r c text).1 = ⟨true, none⟩ ∧
      slidesOf (set_table_cell_text e si ti r c text).2 =
        pres.slides.set si.toNat
          { slide with shapes :=
              replaceNthTable slide.shapes ti.toNat (tdUpdate td r.toNat c.toNat text) } ∧
      (replaceNthTable slide.shapes ti.toNat (tdUpdate td r.toNat c.toNat text)).filter
          isTableShape =
        (slide.shapes.filter isTableShape).set ti.toNat
          (Shape.table (tdUpdate td r.toNat c.toNat text)) ∧
      (replaceNthTable slide.shapes ti.toNat (tdUpdate td r.toNat c.toNat text)).filter
          (fun s => !(isTableShape s)) =
        slide.shapes.filter (fun s => !(isTableShape s))) := by
  have hg : ¬ ((pres.slides.length : ℤ) ≤ si) := by omega
  have htk : ti.toNat < (slide.shapes.filter isTableShape).length :=
    (List.get?_eq_some.mp hT).1
  have hgt : ¬ (((slide.shapes.filter isTableShape).length : ℤ) ≤ ti) := by omega
  have htres : pyResolve (slide.shapes.filter isTableShape).length ti =
      some ti.toNat := pyResolve_nonneg ht0 (by omega)
  constructor
  · intro hout
    have hcell : tableSetCell td r c text = none := by
      simp only [tableSetCell]
      rw [if_neg hout]
    by_cases hover : (td.cells.length : ℤ) ≤ r ∨ (td.cols : ℤ) ≤ c
    · refine ⟨?_, ?_, Or.inl ?_⟩ <;>
        simp only [set_table_cell_text, hO, hg, if_false,
          pyResolve_nonneg h0 h1, hS, hgt, htres, hT, hover, if_true] <;>
        rfl
    · refine ⟨?_, ?_, Or.inr ?_⟩ <;>
        simp only [set_table_cell_text, hO, hg, if_false,
          pyResolve_nonneg h0 h1, hS, hgt, htres, hT, hover, hcell] <;>
        rfl
  · intro hin
    have hover : ¬ ((td.cells.length : ℤ) ≤ r ∨ (td.cols : ℤ) ≤ c) := by omega
    have hcell : tableSetCell td r c text =
        some (tdUpdate td r.toNat c.toNat text) := by
      simp only [tableSetCell]
      rw [if_pos hin]
    refine ⟨?_, ?_, filter_replaceNthTable _ _ _, filter_not_replaceNthTable _ _ _⟩ <;>
      simp only [set_table_cell_text, hO, hg, if_false,
        pyResolve_nonneg h0 h1, hS, hgt, htres, hT, hover, hcell, slidesOf] <;>
      rfl

/-- A 2-row, 2-column table whose cells are empty strings. -/
def demoTbl : TableData :=
  { cells := [["", ""], ["", ""]], cols := 2 }

/-- A slide holding a picture followed by the demo table (the table is the
0th table-variant shape but the 1st shape overall). -/
def demoTblSlide : Slide :=
  { layout := 1, element := [XmlNode.cSld], shapes := [Shape.picture, Shape.table demoTbl] }

/-- An editor whose open document holds the table slide. -/
def demoTblE : PowerPointEditor :=
  { current_presentation := some { slides := [demoTblSlide], sldIdLst := [0] }
  , current_file_path := none }

/-- The demo table after writing cell (0, 1). -/
def demoTblUpdated : TableData :=
  tdUpdate demoTbl (0 : ℤ).toNat (1 : ℤ).toNat "X"

/-- The demo slide after the in-bounds cell write. -/
def demoTblSlide2 : Slide :=
  { demoTblSlide with
      shapes := replaceNthTable demoTblSlide.shapes (0 : ℤ).toNat demoTblUpdated }

/-- Witness for C4: cell (5, 0) is outside the 2-by-2 table and fails with
the table unmodified; cell (0, 1) is inside and rewrites exactly the 0th
table-variant shape. -/
theorem set_table_cell_c4_witness :
    ((set_table_cell_text demoTblE 0 0 5 0 "X").2 = demoTblE ∧
      (set_table_cell_text demoTblE 0 0 5 0 "X").1.success = false ∧
      ((set_table_cell_text demoTblE 0 0 5 0 "X").1.error =
          some ErrKind.cellOutOfRange ∨
        (set_table_cell_text demoTblE 0 0 5 0 "X").1.error =
          some ErrKind.indexError)) ∧
    ((set_table_cell_text demoTblE 0 0 0 1 "X").1 = ⟨true, none⟩ ∧
      slidesOf (set_table_cell_text demoTblE 0 0 0 1 "X").2 =
        [demoTblSlide].set (0 : ℤ).toNat demoTblSlide2 ∧
      (replaceNthTable demoTblSlide.shapes (0 : ℤ).toNat demoTblUpdated).filter
          isTableShape =
        (demoTblSlide.shapes.filter isTableShape).set (0 : ℤ).toNat
          (Shape.table demoTblUpdated) ∧
      (replaceNthTable demoTblSlide.shapes (0 : ℤ).toNat demoTblUpdated).filter
          (fun s => !(isTableShape s)) =
        demoTblSlide.shapes.filter (fun s => !(isTableShape s))) := by
  constructor
  · exact (set_table_cell_c4 demoTblE _ 0 demoTblSlide 0 5 0 demoTbl "X" rfl
      (by decide) (by decide) rfl (by decide) (by decide)).1 (by decide)
  · exact (set_table_cell_c4 demoTblE _ 0 demoTblSlide 0 0 1 demoTbl "X" rfl
      (by decide) (by decide) rfl (by decide) (by decide)).2 (by decide)

/-- The reference trace of the batch operation, following the spec's words:
run the single-slide set on each index in order, threading the state, and
record each index with its success flag. -/
def applySetTrace (transition_type : String) (duration : ℚ) :
    PowerPointEditor → List ℤ → List (ℤ × Bool)
  | _, [] => []
  | e, i :: rest =>
    let r := set_slide_transition e i transition_type duration true none
    (i, r.1.success) :: applySetTrace transition_type duration r.2 rest

theorem applyAux_spec (ty : String) (d : ℚ) :
    ∀ (l : List ℤ) (e : PowerPointEditor),
      (applyAux ty d e l).1 =
        ((applySetTrace ty d e l).filter (fun x => x.2)).length ∧
      (applyAux ty d e l).2.1 =
        ((applySetTrace ty d e l).filter (fun x => !x.2)).map Prod.fst ∧
      (applyAux ty d e l).2.2 =
        l.foldl (fun ed i => (set_slide_transition ed i ty d true none).2) e ∧
      (applySetTrace ty d e l).map Prod.fst = l
  | [], e => by simp [applyAux, applySetTrace]
  | i :: rest, e => by
    have ih := applyAux_spec ty d rest (set_slide_transition e i ty d true none).2
    simp only [applyAux, applySetTrace, List.filter_cons, List.map_cons,
      List.foldl_cons]
    cases hsucc : (set_slide_transition e i ty d true none).1.success with
    | true => simp [hsucc, ih.1, ih.2.1, ih.2.2.1, ih.2.2.2]
    | false => simp [hsucc, ih.1, ih.2.1, ih.2.2.1, ih.2.2.2]

theorem slidesOf_set_transition_length (e : PowerPointEditor) (i : ℤ)
    (ty : String) (d : ℚ) (c : Bool) (a : Option ℚ) :
    (slidesOf (set_slide_transition e i ty d c a).2).length =
      (slidesOf e).length := by
  rcases set_transition_result_cases e i ty d c a with he | ⟨pres, k, slide, hO, hS, hcase⟩
  · rw [he]
  · rcases hcase with h2 | ⟨f, h2⟩ <;> rw [h2] <;>
      simp [updateSlideElem, slidesOf, hO]

theorem foldl_set_transition_length (ty : String) (d : ℚ) :
    ∀ (l : List ℤ) (e : PowerPointEditor),
      (slidesOf (l.foldl
          (fun ed i => (set_slide_transition ed i ty d true none).2) e)).length =
        (slidesOf e).length
  | [], _ => rfl
  | i :: rest, e => by
    rw [List.foldl_cons, foldl_set_transition_length ty d rest _]
    exact slidesOf_set_transition_length e i ty d true none

theorem filter_neg_eq_nil_of_filter_length {α : Type} (p : α → Bool) :
    ∀ l : List α, (l.filter p).length = l.length → l.filter (fun x => !(p x)) = []
  | [], _ => rfl
  | x :: xs, h => by
    cases hx : p x with
    | true =>
      have hrec := filter_neg_eq_nil_of_filter_length p xs
        (by simpa [List.filter_cons, hx] using h)
      simp [List.filter_cons, hx, hrec]
    | false =>
      exfalso
      have hle := List.length_filter_le p xs
      simp [List.filter_cons, hx] at h
      omega

/-- C3: on an open non-empty document, the batch operation runs the
single-slide set on every index `0..N-1` in order, never aborting on a
failure: its final state is exactly the fold of the single-slide operation
over all indices, its `slidesProcessed` field is the number of indices whose
set succeeded, and its `failedSlides` field is exactly the list of indices
whose set failed, in order. -/
theorem apply_all_batch_c3 (e : PowerPointEditor) (pres : Pres) (ty : String)
    (d : ℚ) (hO : e.current_presentation = some pres)
    (hne : 1 ≤ pres.slides.length) :
    (apply_transition_to_all_slides e ty d).1.success = true ∧
    (applySetTrace ty d e (pyRange pres.slides.length)).map Prod.fst =
      pyRange pres.slides.length ∧
    (apply_transition_to_all_slides e ty d).1.slidesProcessed =
      ((applySetTrace ty d e (pyRange pres.slides.length)).filter
        (fun x => x.2)).length ∧
    (apply_transition_to_all_slides e ty d).1.failedSlides =
      ((applySetTrace ty d e (pyRange pres.slides.length)).filter
        (fun x => !x.2)).map Prod.fst ∧
    (apply_transition_to_all_slides e ty d).2 =
      (pyRange pres.slides.length).foldl
        (fun ed i => (set_slide_transition ed i ty d true none).2) e := by
  have hnz : ¬ (pres.slides.length = 0) := by omega
  have hspec := applyAux_spec ty d (pyRange pres.slides.length) e
  have hlen : (slidesOf (applyAux ty d e (pyRange pres.slides.length)).2.2).length =
      pres.slides.length := by
    rw [hspec.2.2.1, foldl_set_transition_length]
    simp [slidesOf, hO]
  have htrlen : (applySetTrace ty d e (pyRange pres.slides.length)).length =
      pres.slides.length := by
    have hmap := congrArg List.length hspec.2.2.2
    simpa [pyRange] using hmap
  simp only [apply_transition_to_all_slides, hO, hnz, if_false]
  by_cases hfull : (applyAux ty d e (pyRange pres.slides.length)).1 =
      (slidesOf (applyAux ty d e (pyRange pres.slides.length)).2.2).length
  · rw [if_pos hfull]
    refine ⟨rfl, hspec.2.2.2, ?_, ?_, hspec.2.2.1⟩
    · rw [← hfull, hspec.1]
    · have hsucclen : ((applySetTrace ty d e (pyRange pres.slides.length)).filter
          (fun x => x.2)).length =
          (applySetTrace ty d e (pyRange pres.slides.length)).length := by
        rw [← hspec.1, hfull, hlen, htrlen]
      rw [filter_neg_eq_nil_of_filter_length _ _ hsucclen]
      rfl
  · rw [if_neg hfull]
    exact ⟨rfl, hspec.2.2.2, hspec.1, hspec.2.1, hspec.2.2.1⟩

/-- Witness for C3 at the concrete two-slide document with a `fade` batch. -/
theorem apply_all_batch_c3_witness :
    (apply_transition_to_all_slides demoE "fade" 1).1.success = true ∧
    (applySetTrace "fade" 1 demoE (pyRange demoPres.slides.length)).map Prod.fst =
      pyRange demoPres.slides.length ∧
    (apply_transition_to_all_slides demoE "fade" 1).1.slidesProcessed =
      ((applySetTrace "fade" 1 demoE (pyRange demoPres.slides.length)).filter
        (fun x => x.2)).length ∧
    (apply_transition_to_all_slides demoE "fade" 1).1.failedSlides =
      ((applySetTrace "fade" 1 demoE (pyRange demoPres.slides.length)).filter
        (fun x => !x.2)).map Prod.fst ∧
    (apply_transition_to_all_slides demoE "fade" 1).2 =
      (pyRange demoPres.slides.length).foldl
        (fun ed i => (set_slide_transition ed i "fade" 1 true none).2) demoE :=
  apply_all_batch_c3 demoE demoPres "fade" 1 rfl (by decide)
